import Mathlib

/-!
# Namal Agri Dashboard: the polling client of `static/js/script.js`

A shallow embedding of the dashboard script: the chart registry built from
`chartConfigs`, `updateLatestData`, `updateCharts`, `fetchData` and the poll
loop, followed by the properties of the specification that are settled on it.

Conventions of the embedding.

* A sensor reading is a JavaScript object, read only through property access:
  `Reading V` maps a property name to `some v`, or to `none` when the property
  is absent (JavaScript `undefined`). The script never inspects a value, so the
  type `V` of values is left open.
* `new Date(d.timestamp * 1000).toLocaleTimeString()` belongs to the host
  runtime; it is the parameter `fmtTime`, applied to `d.timestamp`.
* A response body that parses is an array of readings or a value that is not
  an array (`JsonValue`). An array element is read only through property
  access, so a reading stands for any element other than `null`; arrays with a
  `null` element are outside the model.
* The DOM mount points (`latest-data` and the four canvases) are taken to
  exist, as the page markup provides them.
* In-place mutation is explicit state passing. A routine that can raise
  returns a `Completion`: the state reached, and the error raised if any, so
  that what was mutated before a `throw` is kept.
* A card is kept as the two expressions interpolated into its `innerHTML`
  template, `<h3>${heading}</h3><p class="value">${value}</p>`.
-/

set_option autoImplicit false

namespace Dashboard

/-! ## JavaScript string primitives used by the script -/

/-- Pieces of a character list cut at every occurrence of `sep`, as
`String.prototype.split` with a one-character separator: there is always at
least one piece and empty pieces are kept. -/
def splitChars (sep : Char) : List Char → List (List Char)
  | [] => [[]]
  | c :: cs =>
    if c = sep then [] :: splitChars sep cs
    else
      match splitChars sep cs with
      | [] => [[c]]
      | p :: ps => (c :: p) :: ps

/-- Replaces the first occurrence of `pat` by `repl`, as
`String.prototype.replace` with a string pattern. -/
def replaceChars (pat repl : List Char) : List Char → List Char
  | [] => if pat = [] then repl else []
  | c :: cs =>
    if pat.isPrefixOf (c :: cs) then repl ++ (c :: cs).drop pat.length
    else c :: replaceChars pat repl cs

/-- Replaces every occurrence of the character `a` by `b`, as
`String.prototype.replace` with the global one-character pattern `/a/g`. -/
def replaceAllChar (a b : Char) (s : String) : String :=
  String.mk (s.data.map (fun c => if c = a then b else c))

/-- The method `s.split(sep)` for a one-character separator. -/
def split (s : String) (sep : Char) : List String :=
  (splitChars sep s.data).map String.mk

/-- The method `s.toLowerCase()`. It agrees with JavaScript on the ASCII
letters and on characters without a lower-case mapping, which covers every
label declared in `chartConfigs`. -/
def toLowerCase (s : String) : String :=
  String.mk (s.data.map Char.toLower)

/-- The method `s.replace(pat, repl)` for a string pattern. -/
def replace (s pat repl : String) : String :=
  String.mk (replaceChars pat.data repl.data s.data)

/-! ## Data model -/

/-- A sensor reading: property access on a JavaScript object, `none` being
`undefined`. -/
abbrev Reading (V : Type) := String → Option V

/-- The object literal with the given own properties. -/
def Reading.ofList {V : Type} (kvs : List (String × V)) : Reading V :=
  fun k => kvs.lookup k

/-- Errors raised by the runtime: a rejected `fetch`, a body that is not
JSON, a property access or method call on `undefined`. -/
inductive JsError
  | networkError
  | syntaxError
  | typeError
  deriving DecidableEq, Repr

/-- The state a routine reached and the error it raised, if it raised one. -/
structure Completion (σ : Type) where
  state : σ
  threw : Option JsError

/-- One dataset of a chart. -/
structure Dataset (V : Type) where
  label : String
  data : List (Option V)
  borderColor : String
  fill : Bool

/-- The `data` member of a chart configuration. -/
structure ChartData (V : Type) where
  labels : List String
  datasets : List (Dataset V)

/-- The `options` member of a chart configuration. -/
structure ChartOptions where
  responsive : Bool
  titleDisplay : Bool
  titleText : String

/-- A chart configuration, as the entries of `chartConfigs`. -/
structure ChartConfig (V : Type) where
  type : String
  data : ChartData V
  options : ChartOptions

/-- A chart widget: `new Chart(ctx, config)` keeps the configuration it was
given; `updates` counts the calls of `chart.update()`. -/
structure Chart (V : Type) where
  type : String
  data : ChartData V
  options : ChartOptions
  updates : Nat

/-- The registry `charts`: an object keyed by chart identifier, in insertion
order (the order of `Object.keys`). -/
abbrev Charts (V : Type) := List (String × Chart V)

/-- One child of the `latest-data` container. -/
structure Card (V : Type) where
  className : String
  heading : String
  value : Option V

/-- The page: the children of the `latest-data` container, the chart
registry, and what was written with `console.error`. -/
structure Page (V : Type) where
  latestData : List (Card V)
  charts : Charts V
  console : List (String × JsError)

/-- A parsed body that is not an array: `null`, a boolean, a number, a string
or an object. For an object, `data.length > 0` and `data[data.length - 1]` go
through the runtime's numeric coercion of the member `length`; what the two
expressions evaluate to is recorded with the object (`positive`, and
`element`, which is `none` when the element is `undefined` or `null`) and is
read only when the object has a member `length`. -/
inductive JsonValue (V : Type)
  | null
  | bool (b : Bool)
  | number (x : ℚ)
  | string (s : String)
  | object (members : Reading V) (positive : Bool) (element : Option (Reading V))

/-- The outcome of the two awaited steps of a poll. -/
inductive PollOutcome (V : Type)
  /-- The promise of `fetch('/data')` rejects. -/
  | fetchRejects
  /-- The promise of `fetch` resolves to a response with this HTTP status;
  `response.json()` rejects (`none`) or yields an array of readings. -/
  | response (status : Nat) (body : Option (List (Reading V)))
  /-- The promise of `fetch` resolves to a response with this HTTP status and
  `response.json()` yields a value that is not an array. -/
  | nonArray (status : Nat) (body : JsonValue V)

/-! ## The script -/

/-- The constant `chartConfigs`. -/
def chartConfigs (V : Type) : List (String × ChartConfig V) :=
  [ ("temp-humidity-chart",
      { type := "line"
        data :=
          { labels := []
            datasets :=
              [ { label := "Air Temperature (°C)", data := [], borderColor := "crimson", fill := false },
                { label := "Air Humidity (%)", data := [], borderColor := "skyblue", fill := false },
                { label := "Soil Temperature (°C)", data := [], borderColor := "red", fill := false },
                { label := "Soil Humidity (%)", data := [], borderColor := "purple", fill := false } ] }
        options := { responsive := true, titleDisplay := true, titleText := "Temperature & Humidity" } }),
    ("soil-nutrients-chart",
      { type := "line"
        data :=
          { labels := []
            datasets :=
              [ { label := "Nitrogen (mg/kg)", data := [], borderColor := "green", fill := false },
                { label := "Phosphorus (mg/kg)", data := [], borderColor := "orange", fill := false },
                { label := "Potassium (mg/kg)", data := [], borderColor := "brown", fill := false } ] }
        options := { responsive := true, titleDisplay := true, titleText := "Soil Nutrients" } }),
    ("soil-moisture-chart",
      { type := "line"
        data :=
          { labels := []
            datasets :=
              [ { label := "Soil Moisture (%)", data := [], borderColor := "blue", fill := false } ] }
        options := { responsive := true, titleDisplay := true, titleText := "Soil Moisture" } }),
    ("soil-ph-chart",
      { type := "line"
        data :=
          { labels := []
            datasets :=
              [ { label := "Soil pH", data := [], borderColor := "darkgreen", fill := false } ] }
        options := { responsive := true, titleDisplay := true, titleText := "Soil pH" } }) ]

/-- The assignment `charts[id] = chart`: an existing key keeps its place, a
new key is added last. -/
def setChart {V : Type} (id : String) (chart : Chart V) : Charts V → Charts V
  | [] => [(id, chart)]
  | (k, c) :: rest =>
    if k = id then (k, chart) :: rest else (k, c) :: setChart id chart rest

/-- The function `createChart(id, config)`. -/
def createChart {V : Type} (id : String) (config : ChartConfig V) (charts : Charts V) :
    Charts V :=
  setChart id
    { type := config.type, data := config.data, options := config.options, updates := 0 }
    charts

/-- The array `parameters` of `updateLatestData`. -/
def parameters : List String :=
  [ "soil_moisture", "soil_nitrogen", "soil_phosphorus", "soil_potassium",
    "soil_temperature", "soil_humidity", "soil_ph", "air_temperature", "air_humidity" ]

/-- The loop `parameters.forEach(param => ...)` of `updateLatestData` over the
parameters still to visit: each step builds a card and appends it to the
container; reading a property of `undefined` raises. -/
def appendCards {V : Type} (latest : Option (Reading V)) :
    List String → List (Card V) → Completion (List (Card V))
  | [], container => { state := container, threw := none }
  | param :: rest, container =>
    match latest with
    | none => { state := container, threw := some JsError.typeError }
    | some obj =>
      appendCards latest rest
        (container ++
          [{ className := "sensor-card"
             heading := replaceAllChar '_' ' ' param
             value := obj param }])

/-- The function `updateLatestData(latest)`, on the children of the
`latest-data` container: `container.innerHTML = ''`, then one card per
parameter. -/
def updateLatestData {V : Type} (latest : Option (Reading V)) (_container : List (Card V)) :
    Completion (List (Card V)) :=
  appendCards latest parameters []

/-- The field name `updateCharts` computes from a dataset label:
`label.split(' ')[0].toLowerCase() + '_' +
 label.split(' ')[1].toLowerCase().replace('(%', '').replace(')', '').replace('(°c)', '')`.
It is `none` when `label.split(' ')[1]` is `undefined`, where the method call
raises a `TypeError`. -/
def paramOf (label : String) : Option String :=
  match (split label ' ')[1]? with
  | none => none
  | some second =>
    some (toLowerCase ((split label ' ').headD "") ++ "_" ++
      replace (replace (replace (toLowerCase second) "(%" "") ")" "") "(°c)" "")

/-- The loop `chart.data.datasets.forEach(dataset => ...)` of `updateCharts`:
datasets before the one that raises are rebound, the others are untouched. -/
def updateDatasets {V : Type} (data : List (Reading V)) :
    List (Dataset V) → Completion (List (Dataset V))
  | [] => { state := [], threw := none }
  | dataset :: rest =>
    match paramOf dataset.label with
    | none => { state := dataset :: rest, threw := some JsError.typeError }
    | some param =>
      let r := updateDatasets data rest
      { state := { dataset with data := data.map (fun d => d param) } :: r.state
        threw := r.threw }

/-- The loop `Object.keys(charts).forEach(chartId => ...)` of `updateCharts`,
with the labels already computed. -/
def updateChartsLoop {V : Type} (labels : List String) (data : List (Reading V)) :
    Charts V → Completion (Charts V)
  | [] => { state := [], threw := none }
  | (chartId, chart) :: rest =>
    let r := updateDatasets data chart.data.datasets
    match r.threw with
    | some e =>
      { state := (chartId, { chart with data := { labels := labels, datasets := r.state } }) :: rest
        threw := some e }
    | none =>
      let rs := updateChartsLoop labels data rest
      { state :=
          (chartId,
            { chart with
              data := { labels := labels, datasets := r.state }
              updates := chart.updates + 1 }) :: rs.state
        threw := rs.threw }

/-- The function `updateCharts(data)`. -/
def updateCharts {V : Type} (fmtTime : Option V → String) (data : List (Reading V))
    (charts : Charts V) : Completion (Charts V) :=
  let labels := data.map (fun d => fmtTime (d "timestamp"))
  updateChartsLoop labels data charts

/-- The `catch` block of `fetchData`: the error is written to the console and
the promise of `fetchData` resolves. -/
def catchError {V : Type} (page : Page V) (error : JsError) : Completion (Page V) :=
  { state := { page with console := page.console ++ [("Error fetching data:", error)] }
    threw := none }

/-- The left operand of `data && data.length > 0` for a body that is not an
array: `null`, `false`, `0` and the empty string are falsy. -/
def JsonValue.truthy {V : Type} : JsonValue V → Bool
  | .null => false
  | .bool b => b
  | .number x => decide (x ≠ 0)
  | .string s => decide (s ≠ "")
  | .object _ _ _ => true

/-- The right operand of `data && data.length > 0` for a body that is not an
array: a boolean and a number have no `length` and `undefined > 0` is false,
as for an object without a member `length`; a string has its length. It is
not evaluated for `null`. -/
def JsonValue.lengthPositive {V : Type} : JsonValue V → Bool
  | .null => false
  | .bool _ => false
  | .number _ => false
  | .string s => decide (s.length > 0)
  | .object members positive _ =>
    match members "length" with
    | none => false
    | some _ => positive

/-- The expression `data[data.length - 1]` for a body that is not an array
and passed the guard, `none` being `undefined` or `null`: the last code unit
of a string is a string, which has none of the properties the script reads. -/
def JsonValue.last {V : Type} : JsonValue V → Option (Reading V)
  | .string _ => some (fun _ => none)
  | .object _ _ element => element
  | _ => none

/-- The call `updateCharts(data)` for a body that is not an array: `data.map`
is not a function, so the first statement raises before any chart is
touched. -/
def updateChartsNonArray {V : Type} (charts : Charts V) : Completion (Charts V) :=
  { state := charts, threw := some JsError.typeError }

/-- The function `fetchData()`, for a given outcome of its two awaited
steps. -/
def fetchData {V : Type} (fmtTime : Option V → String) (page : Page V) :
    PollOutcome V → Completion (Page V)
  | .fetchRejects => catchError page JsError.networkError
  | .response _ none => catchError page JsError.syntaxError
  | .response _ (some data) =>
    if data.length > 0 then
      let latest := data[data.length - 1]?
      let r1 := updateLatestData latest page.latestData
      match r1.threw with
      | some e => catchError { page with latestData := r1.state } e
      | none =>
        let r2 := updateCharts fmtTime data page.charts
        match r2.threw with
        | some e => catchError { page with latestData := r1.state, charts := r2.state } e
        | none =>
          { state := { page with latestData := r1.state, charts := r2.state }
            threw := none }
    else { state := page, threw := none }
  | .nonArray _ data =>
    if data.truthy && data.lengthPositive then
      let latest := data.last
      let r1 := updateLatestData latest page.latestData
      match r1.threw with
      | some e => catchError { page with latestData := r1.state } e
      | none =>
        let r2 := updateChartsNonArray page.charts
        match r2.threw with
        | some e => catchError { page with latestData := r1.state, charts := r2.state } e
        | none =>
          { state := { page with latestData := r1.state, charts := r2.state }
            threw := none }
    else { state := page, threw := none }

/-- The page after the initial setup and before the first poll: one chart per
entry of `chartConfigs`, created in the order of its keys; the container holds
whatever the markup put there. -/
def initialPage {V : Type} (markup : List (Card V)) : Page V :=
  { latestData := markup
    charts := (chartConfigs V).foldl (fun charts p => createChart p.1 p.2 charts) []
    console := [] }

/-- The poll loop: `fetchData()` once, then again at every tick of the timer,
whatever the previous polls did. -/
def runPolls {V : Type} (fmtTime : Option V → String) (page : Page V) :
    List (PollOutcome V) → Page V
  | [] => page
  | o :: rest => runPolls fmtTime (fetchData fmtTime page o).state rest

/-- The pages the script can show: the initial page, and any page a poll
leaves. -/
inductive Reachable {V : Type} (fmtTime : Option V → String) : Page V → Prop
  | setup (markup : List (Card V)) : Reachable fmtTime (initialPage markup)
  | poll (page : Page V) (o : PollOutcome V) :
      Reachable fmtTime page → Reachable fmtTime (fetchData fmtTime page o).state

/-! ## Observations used by the properties -/

/-- What a chart shows: its x-axis labels and, per dataset, the display label
and the value sequence. -/
def chartView {V : Type} (chart : Chart V) : List String × List (String × List (Option V)) :=
  (chart.data.labels, chart.data.datasets.map (fun ds => (ds.label, ds.data)))

/-- What the registry shows, per chart identifier. -/
def chartsView {V : Type} (charts : Charts V) :
    List (String × List String × List (String × List (Option V))) :=
  charts.map (fun p => (p.1, chartView p.2))

/-- The identifiers and dataset display labels of a registry. -/
def shape {V : Type} (charts : Charts V) : List (String × List String) :=
  charts.map (fun p => (p.1, p.2.data.datasets.map (fun ds => ds.label)))

/-- A registry holding the four charts of `chartConfigs` with their declared
datasets; labels, values and update counts are arbitrary. -/
def Declared {V : Type} (charts : Charts V) : Prop :=
  shape charts =
    (chartConfigs V).map (fun p => (p.1, p.2.data.datasets.map (fun ds => ds.label)))

/-- Every dataset of a chart has one value per x-axis label. -/
def Aligned {V : Type} (chart : Chart V) : Prop :=
  ∀ ds ∈ chart.data.datasets, ds.data.length = chart.data.labels.length

/-! ## Definitions used by the proofs -/

/-- The card `updateLatestData` builds for one parameter. -/
def cardOf {V : Type} (obj : Reading V) (param : String) : Card V :=
  { className := "sensor-card", heading := replaceAllChar '_' ' ' param, value := obj param }

/-- The effect of `updateCharts` on one dataset whose label yields a field
name; a dataset whose label yields none is left as it is. -/
def rebind {V : Type} (data : List (Reading V)) (ds : Dataset V) : Dataset V :=
  match paramOf ds.label with
  | none => ds
  | some param => { ds with data := data.map (fun d => d param) }

/-- Every dataset label of the registry yields a field name. -/
def Parses {V : Type} (charts : Charts V) : Prop :=
  ∀ p ∈ charts, ∀ ds ∈ p.2.data.datasets, (paramOf ds.label).isSome = true

/-- The effect of a completed `updateCharts` on one chart. -/
def redraw {V : Type} (labels : List String) (data : List (Reading V)) (chart : Chart V) :
    Chart V :=
  { chart with
    data := { labels := labels, datasets := chart.data.datasets.map (rebind data) }
    updates := chart.updates + 1 }

/-- The reading of the specification's concrete scenario. -/
def sampleReading : Reading ℚ :=
  Reading.ofList
    [ ("timestamp", 1000), ("soil_moisture", 42), ("soil_nitrogen", 10),
      ("soil_phosphorus", 5), ("soil_potassium", 20), ("soil_temperature", 22),
      ("soil_humidity", 55), ("soil_ph", 6.5), ("air_temperature", 25),
      ("air_humidity", 60) ]

/-- A stand-in for the runtime's time formatting in concrete evaluations. -/
def sampleClock : Option ℚ → String
  | none => "Invalid Date"
  | some _ => "12:16:40 AM"

/-- The user interface of a page: the card panel and the chart registry (the
console is not part of it). -/
def ui {V : Type} (page : Page V) : List (Card V) × Charts V :=
  (page.latestData, page.charts)

/-- A poll that updates nothing: the fetch is rejected or the body is not
JSON. -/
def PollOutcome.failed {V : Type} : PollOutcome V → Bool
  | .fetchRejects => true
  | .response _ none => true
  | .response _ (some _) => false
  | .nonArray _ _ => false

/-! ## The loops in closed form, and what a poll preserves -/

theorem appendCards_some {V : Type} (obj : Reading V) (ps : List String)
    (container : List (Card V)) :
    appendCards (some obj) ps container =
      { state := container ++ ps.map (cardOf obj), threw := none } := by
  induction ps generalizing container with
  | nil => simp [appendCards]
  | cons p ps ih => simp [appendCards, ih, cardOf]

theorem updateLatestData_some {V : Type} (obj : Reading V) (container : List (Card V)) :
    updateLatestData (some obj) container =
      { state := parameters.map (cardOf obj), threw := none } := by
  simp [updateLatestData, appendCards_some]

theorem rebind_label {V : Type} (data : List (Reading V)) (ds : Dataset V) :
    (rebind data ds).label = ds.label := by
  unfold rebind
  cases paramOf ds.label <;> rfl

theorem rebind_rebind {V : Type} (d1 d2 : List (Reading V)) (ds : Dataset V) :
    rebind d2 (rebind d1 ds) = rebind d2 ds := by
  unfold rebind
  cases h : paramOf ds.label <;> simp [h]

theorem updateDatasets_threw {V : Type} (d1 d2 : List (Reading V)) (dss : List (Dataset V)) :
    (updateDatasets d1 dss).threw = (updateDatasets d2 dss).threw := by
  induction dss with
  | nil => rfl
  | cons ds rest ih =>
    unfold updateDatasets
    cases paramOf ds.label <;> simp [ih]

theorem updateDatasets_overwrite {V : Type} (d1 d2 : List (Reading V))
    (dss : List (Dataset V)) :
    updateDatasets d2 (updateDatasets d1 dss).state = updateDatasets d2 dss := by
  induction dss with
  | nil => rfl
  | cons ds rest ih =>
    cases h : paramOf ds.label with
    | none => simp [updateDatasets, h]
    | some param => simp [updateDatasets, h, ih]

theorem updateDatasets_of_parses {V : Type} (data : List (Reading V)) (dss : List (Dataset V))
    (h : ∀ ds ∈ dss, (paramOf ds.label).isSome = true) :
    updateDatasets data dss = { state := dss.map (rebind data), threw := none } := by
  induction dss with
  | nil => rfl
  | cons ds rest ih =>
    have h1 := h ds (List.mem_cons_self _ _)
    have h2 := ih (fun x hx => h x (List.mem_cons_of_mem _ hx))
    cases hp : paramOf ds.label with
    | none => simp [hp] at h1
    | some param => simp [updateDatasets, hp, h2, rebind]

theorem updateChartsLoop_of_parses {V : Type} (labels : List String) (data : List (Reading V))
    (charts : Charts V) (h : Parses charts) :
    updateChartsLoop labels data charts =
      { state := charts.map (fun p => (p.1, redraw labels data p.2)), threw := none } := by
  induction charts with
  | nil => rfl
  | cons p rest ih =>
    obtain ⟨chartId, chart⟩ := p
    have h1 := updateDatasets_of_parses data chart.data.datasets
      (h (chartId, chart) (List.mem_cons_self _ _))
    have h2 := ih (fun x hx => h x (List.mem_cons_of_mem _ hx))
    simp [updateChartsLoop, h1, h2, redraw]

theorem updateCharts_of_parses {V : Type} (fmtTime : Option V → String)
    (data : List (Reading V)) (charts : Charts V) (h : Parses charts) :
    updateCharts fmtTime data charts =
      { state := charts.map
          (fun p => (p.1, redraw (data.map (fun d => fmtTime (d "timestamp"))) data p.2))
        threw := none } := by
  simp [updateCharts, updateChartsLoop_of_parses _ _ _ h]

theorem updateChartsLoop_threw {V : Type} (l1 l2 : List String) (d1 d2 : List (Reading V))
    (charts : Charts V) :
    (updateChartsLoop l1 d1 charts).threw = (updateChartsLoop l2 d2 charts).threw := by
  induction charts with
  | nil => rfl
  | cons p rest ih =>
    obtain ⟨chartId, chart⟩ := p
    have ht := updateDatasets_threw d1 d2 chart.data.datasets
    unfold updateChartsLoop
    cases h2 : (updateDatasets d2 chart.data.datasets).threw with
    | none => simp [ht, h2, ih]
    | some e => simp [ht, h2]

theorem updateChartsLoop_overwrite {V : Type} (l1 l2 : List String) (d1 d2 : List (Reading V))
    (charts : Charts V) :
    chartsView (updateChartsLoop l2 d2 (updateChartsLoop l1 d1 charts).state).state =
      chartsView (updateChartsLoop l2 d2 charts).state := by
  induction charts with
  | nil => rfl
  | cons p rest ih =>
    obtain ⟨chartId, chart⟩ := p
    have ht := updateDatasets_threw d1 d2 chart.data.datasets
    have ho := updateDatasets_overwrite d1 d2 chart.data.datasets
    cases h2 : (updateDatasets d2 chart.data.datasets).threw with
    | none =>
      rw [h2] at ht
      simp only [chartsView, chartView] at ih
      simp [updateChartsLoop, ht, h2, ho, chartsView, chartView, ih]
    | some e =>
      rw [h2] at ht
      simp [updateChartsLoop, ht, h2, ho, chartsView, chartView]

theorem updateDatasets_threw_after {V : Type} (d1 d2 : List (Reading V))
    (dss : List (Dataset V)) :
    (updateDatasets d2 (updateDatasets d1 dss).state).threw = (updateDatasets d1 dss).threw := by
  rw [updateDatasets_overwrite]
  exact updateDatasets_threw d2 d1 dss

theorem updateChartsLoop_threw_after {V : Type} (labels : List String) (d : List (Reading V))
    (charts : Charts V) :
    (updateChartsLoop labels d (updateChartsLoop labels d charts).state).threw =
      (updateChartsLoop labels d charts).threw := by
  induction charts with
  | nil => rfl
  | cons p rest ih =>
    obtain ⟨chartId, chart⟩ := p
    have ho := updateDatasets_overwrite d d chart.data.datasets
    cases h2 : (updateDatasets d chart.data.datasets).threw with
    | none => simp [updateChartsLoop, h2, ho, ih]
    | some e => simp [updateChartsLoop, h2, ho]

theorem declared_labels (V : Type) :
    (chartConfigs V).map (fun p => (p.1, p.2.data.datasets.map (fun ds => ds.label))) =
      [ ("temp-humidity-chart",
          ["Air Temperature (°C)", "Air Humidity (%)", "Soil Temperature (°C)", "Soil Humidity (%)"]),
        ("soil-nutrients-chart", ["Nitrogen (mg/kg)", "Phosphorus (mg/kg)", "Potassium (mg/kg)"]),
        ("soil-moisture-chart", ["Soil Moisture (%)"]),
        ("soil-ph-chart", ["Soil pH"]) ] := rfl

theorem initialPage_charts {V : Type} (markup : List (Card V)) :
    (initialPage markup).charts =
      (chartConfigs V).map (fun p =>
        (p.1, { type := p.2.type, data := p.2.data, options := p.2.options, updates := 0 })) := by
  simp [initialPage, chartConfigs, createChart, setChart]

theorem initialPage_declared {V : Type} (markup : List (Card V)) :
    Declared (initialPage markup).charts := by
  rw [Declared, initialPage_charts]
  rfl

theorem parses_of_declared {V : Type} (charts : Charts V) (h : Declared charts) :
    Parses charts := by
  intro p hp ds hds
  have hmem : (p.1, p.2.data.datasets.map (fun ds => ds.label)) ∈ shape charts :=
    List.mem_map.mpr ⟨p, hp, rfl⟩
  have hl : ds.label ∈ p.2.data.datasets.map (fun ds => ds.label) :=
    List.mem_map.mpr ⟨ds, hds, rfl⟩
  rw [h, declared_labels] at hmem
  generalize p.2.data.datasets.map (fun ds => ds.label) = ls at hmem hl
  simp only [List.mem_cons, Prod.mk.injEq, List.mem_singleton, List.not_mem_nil, or_false] at hmem
  have hall : ∀ l ∈ ["Air Temperature (°C)", "Air Humidity (%)", "Soil Temperature (°C)",
      "Soil Humidity (%)", "Nitrogen (mg/kg)", "Phosphorus (mg/kg)", "Potassium (mg/kg)",
      "Soil Moisture (%)", "Soil pH"], (paramOf l).isSome = true := by decide
  apply hall
  rcases hmem with ⟨-, rfl⟩ | ⟨-, rfl⟩ | ⟨-, rfl⟩ | ⟨-, rfl⟩ <;>
    simp only [List.mem_cons, List.mem_singleton, List.not_mem_nil, or_false] at hl ⊢ <;>
    tauto

theorem last_index {α : Type} (l : List α) (h : l ≠ []) :
    l[l.length - 1]? = some (l.getLast h) := by
  rw [← List.getLast?_eq_getElem?, List.getLast?_eq_getLast _ h]

theorem fetchData_of_parses {V : Type} (fmtTime : Option V → String) (page : Page V)
    (status : Nat) (data : List (Reading V)) (hd : data ≠ []) (hp : Parses page.charts) :
    fetchData fmtTime page (.response status (some data)) =
      { state :=
          { page with
            latestData := parameters.map (cardOf (data.getLast hd))
            charts := page.charts.map
              (fun p => (p.1, redraw (data.map (fun d => fmtTime (d "timestamp"))) data p.2)) }
        threw := none } := by
  have hlen : data.length > 0 := List.length_pos.mpr hd
  simp [fetchData, hlen, last_index data hd, updateLatestData_some,
    updateCharts_of_parses _ _ _ hp]

theorem fetchData_latestData {V : Type} (fmtTime : Option V → String) (page : Page V)
    (status : Nat) (data : List (Reading V)) (hd : data ≠ []) :
    (fetchData fmtTime page (.response status (some data))).state.latestData =
      parameters.map (cardOf (data.getLast hd)) := by
  have hlen : data.length > 0 := List.length_pos.mpr hd
  simp only [fetchData, hlen, last_index data hd, updateLatestData_some, if_true]
  cases h : (updateCharts fmtTime data page.charts).threw <;> simp [catchError]

theorem fetchData_charts {V : Type} (fmtTime : Option V → String) (page : Page V)
    (status : Nat) (data : List (Reading V)) (hd : data ≠ []) :
    (fetchData fmtTime page (.response status (some data))).state.charts =
      (updateCharts fmtTime data page.charts).state := by
  have hlen : data.length > 0 := List.length_pos.mpr hd
  simp only [fetchData, hlen, last_index data hd, updateLatestData_some, if_true]
  cases h : (updateCharts fmtTime data page.charts).threw <;> simp [catchError]

theorem fetchData_nonArray {V : Type} (fmtTime : Option V → String) (page : Page V)
    (status : Nat) (body : JsonValue V) :
    fetchData fmtTime page (.nonArray status body) =
      if body.truthy && body.lengthPositive then
        catchError { page with latestData := (updateLatestData body.last page.latestData).state }
          JsError.typeError
      else { state := page, threw := none } := by
  simp only [fetchData, updateChartsNonArray]
  split
  · split
    · rename_i e he
      cases hl : body.last with
      | none => simp [hl, updateLatestData, appendCards, parameters] at he ⊢; rw [← he]
      | some obj => simp [hl, updateLatestData_some] at he
    · rfl
  · rfl

theorem fetchData_nonArray_charts {V : Type} (fmtTime : Option V → String) (page : Page V)
    (status : Nat) (body : JsonValue V) :
    (fetchData fmtTime page (.nonArray status body)).state.charts = page.charts := by
  rw [fetchData_nonArray]
  split <;> rfl

theorem fetchData_threw {V : Type} (fmtTime : Option V → String) (page : Page V)
    (o : PollOutcome V) : (fetchData fmtTime page o).threw = none := by
  rcases o with _ | ⟨status, _ | data⟩ | ⟨status, body⟩
  · rfl
  · rfl
  · simp only [fetchData]
    split
    · split
      · rfl
      · split <;> rfl
    · rfl
  · rw [fetchData_nonArray]
    split <;> rfl

theorem fetchData_failed {V : Type} (fmtTime : Option V → String) (page : Page V)
    (o : PollOutcome V) (h : o.failed = true) :
    ∃ e, fetchData fmtTime page o = catchError page e := by
  rcases o with _ | ⟨status, _ | data⟩ | ⟨status, body⟩
  · exact ⟨_, rfl⟩
  · exact ⟨_, rfl⟩
  · simp [PollOutcome.failed] at h
  · simp [PollOutcome.failed] at h

theorem fetchData_ui_congr {V : Type} (fmtTime : Option V → String) (p q : Page V)
    (o : PollOutcome V) (h : ui p = ui q) :
    ui (fetchData fmtTime p o).state = ui (fetchData fmtTime q o).state := by
  obtain ⟨pl, pc, pk⟩ := p
  obtain ⟨ql, qc, qk⟩ := q
  simp only [ui, Prod.mk.injEq] at h
  obtain ⟨rfl, rfl⟩ := h
  rcases o with _ | ⟨status, _ | data⟩ | ⟨status, body⟩
  · rfl
  · rfl
  · simp only [fetchData]
    split
    · split
      · rfl
      · split <;> rfl
    · rfl
  · simp only [fetchData_nonArray]
    split <;> rfl

theorem runPolls_append {V : Type} (fmtTime : Option V → String) (page : Page V)
    (xs ys : List (PollOutcome V)) :
    runPolls fmtTime page (xs ++ ys) = runPolls fmtTime (runPolls fmtTime page xs) ys := by
  induction xs generalizing page with
  | nil => rfl
  | cons x xs ih => simp [runPolls, ih]

theorem declared_map_redraw {V : Type} (labels : List String) (data : List (Reading V))
    (charts : Charts V) (h : Declared charts) :
    Declared (charts.map (fun p => (p.1, redraw labels data p.2))) := by
  unfold Declared at h ⊢
  rw [← h]
  simp [shape, redraw, Function.comp_def, rebind_label]

theorem rebind_data_of_some {V : Type} (data : List (Reading V)) (ds : Dataset V)
    (param : String) (h : paramOf ds.label = some param) :
    (rebind data ds).data = data.map (fun d => d param) := by
  simp [rebind, h]

theorem declared_keys {V : Type} (charts : Charts V) (h : Declared charts) :
    charts.map Prod.fst =
      ["temp-humidity-chart", "soil-nutrients-chart", "soil-moisture-chart", "soil-ph-chart"] := by
  have := congrArg (List.map Prod.fst) h
  rw [declared_labels] at this
  simpa [shape, Function.comp_def] using this

theorem updateCharts_declared {V : Type} (fmtTime : Option V → String)
    (data : List (Reading V)) (charts : Charts V) (hc : Declared charts) :
    Declared (updateCharts fmtTime data charts).state ∧
    ∀ p ∈ (updateCharts fmtTime data charts).state,
      p.2.data.labels.length = data.length ∧
      ∀ ds ∈ p.2.data.datasets, ds.data.length = data.length := by
  have hp := parses_of_declared _ hc
  rw [updateCharts_of_parses _ _ _ hp]
  refine ⟨declared_map_redraw _ _ _ hc, ?_⟩
  intro p hpm
  obtain ⟨q, hq, rfl⟩ := List.mem_map.mp hpm
  refine ⟨by simp [redraw], ?_⟩
  intro ds hds
  simp only [redraw, List.mem_map] at hds
  obtain ⟨ds0, hds0, rfl⟩ := hds
  obtain ⟨param, hparam⟩ := Option.isSome_iff_exists.mp (hp q hq ds0 hds0)
  rw [rebind_data_of_some data ds0 param hparam]
  simp

theorem fetchData_charts_cases {V : Type} (fmtTime : Option V → String) (page : Page V)
    (o : PollOutcome V) (hp : Parses page.charts) :
    (fetchData fmtTime page o).state.charts = page.charts ∨
    ∃ data, (fetchData fmtTime page o).state.charts =
      (updateCharts fmtTime data page.charts).state := by
  rcases o with _ | ⟨status, _ | data⟩ | ⟨status, body⟩
  · exact Or.inl rfl
  · exact Or.inl rfl
  · by_cases hd : data = []
    · subst hd
      left
      simp [fetchData]
    · right
      refine ⟨data, ?_⟩
      rw [fetchData_of_parses fmtTime page status data hd hp, updateCharts_of_parses _ _ _ hp]
  · exact Or.inl (fetchData_nonArray_charts fmtTime page status body)

theorem reachable_declared_aligned {V : Type} (fmtTime : Option V → String) (page : Page V)
    (h : Reachable fmtTime page) :
    Declared page.charts ∧ ∀ p ∈ page.charts, Aligned p.2 := by
  induction h with
  | setup markup =>
    refine ⟨initialPage_declared markup, ?_⟩
    rw [initialPage_charts]
    intro p hp
    simp only [chartConfigs, List.map_cons, List.map_nil, List.mem_cons, List.mem_singleton,
      List.not_mem_nil, or_false] at hp
    rcases hp with rfl | rfl | rfl | rfl <;> simp [Aligned]
  | poll page o _ ih =>
    obtain ⟨hd, ha⟩ := ih
    rcases fetchData_charts_cases fmtTime page o (parses_of_declared _ hd) with h | ⟨data, h⟩
    · rw [h]
      exact ⟨hd, ha⟩
    · rw [h]
      obtain ⟨hd2, hl⟩ := updateCharts_declared fmtTime data page.charts hd
      refine ⟨hd2, ?_⟩
      intro p hp ds hds
      rw [(hl p hp).1, (hl p hp).2 ds hds]

/-! ## The properties of the specification -/

/-- C1 (the code evaluated). The field names `updateCharts` derives from the
nine declared dataset labels: six are fields of a reading, but the three
nutrient labels yield `nitrogen_(mg/kg`, `phosphorus_(mg/kg` and
`potassium_(mg/kg`, which are not among the nine fields; after `updateCharts`
on the one-reading array of the specification, whose `soil_nitrogen` is 10,
the Nitrogen, Phosphorus and Potassium datasets each hold one `undefined`. -/
theorem derived_fields_of_declared_labels (fmtTime : Option ℚ → String) :
    (chartConfigs ℚ).flatMap
        (fun p => p.2.data.datasets.map (fun ds => (ds.label, paramOf ds.label))) =
      [ ("Air Temperature (°C)", some "air_temperature"),
        ("Air Humidity (%)", some "air_humidity"),
        ("Soil Temperature (°C)", some "soil_temperature"),
        ("Soil Humidity (%)", some "soil_humidity"),
        ("Nitrogen (mg/kg)", some "nitrogen_(mg/kg"),
        ("Phosphorus (mg/kg)", some "phosphorus_(mg/kg"),
        ("Potassium (mg/kg)", some "potassium_(mg/kg"),
        ("Soil Moisture (%)", some "soil_moisture"),
        ("Soil pH", some "soil_ph") ] ∧
    "nitrogen_(mg/kg" ∉ parameters ∧ "phosphorus_(mg/kg" ∉ parameters ∧
    "potassium_(mg/kg" ∉ parameters ∧
    sampleReading "soil_nitrogen" = some 10 ∧
    chartsView (updateCharts fmtTime [sampleReading] (initialPage []).charts).state =
      [ ("temp-humidity-chart", [fmtTime (some 1000)],
          [ ("Air Temperature (°C)", [some 25]), ("Air Humidity (%)", [some 60]),
            ("Soil Temperature (°C)", [some 22]), ("Soil Humidity (%)", [some 55]) ]),
        ("soil-nutrients-chart", [fmtTime (some 1000)],
          [ ("Nitrogen (mg/kg)", [none]), ("Phosphorus (mg/kg)", [none]),
            ("Potassium (mg/kg)", [none]) ]),
        ("soil-moisture-chart", [fmtTime (some 1000)], [("Soil Moisture (%)", [some 42])]),
        ("soil-ph-chart", [fmtTime (some 1000)], [("Soil pH", [some 6.5])]) ] := by
  refine ⟨by decide, by decide, by decide, by decide, by decide, ?_⟩
  rfl

/-- C2. For a non-empty response array of length N and any prior contents of
the four declared charts, the poll runs `updateCharts` to completion; after it
the registry still holds the four charts, every chart has N labels, the i-th
being the formatted timestamp of the i-th reading, and every dataset has N
values, the i-th being the i-th reading's value of the field derived from the
dataset label. -/
theorem poll_charts_follow_input {V : Type} (fmtTime : Option V → String) (page : Page V)
    (status : Nat) (data : List (Reading V)) (hd : data ≠ [])
    (hc : Declared page.charts) :
    (fetchData fmtTime page (.response status (some data))).state.charts =
        (updateCharts fmtTime data page.charts).state ∧
    (updateCharts fmtTime data page.charts).threw = none ∧
    (updateCharts fmtTime data page.charts).state.map Prod.fst =
      ["temp-humidity-chart", "soil-nutrients-chart", "soil-moisture-chart", "soil-ph-chart"] ∧
    ∀ p ∈ (updateCharts fmtTime data page.charts).state,
      p.2.data.labels.length = data.length ∧
      (∀ (i : Nat) (hi : i < data.length),
        p.2.data.labels[i]? = some (fmtTime ((data.get ⟨i, hi⟩) "timestamp"))) ∧
      ∀ ds ∈ p.2.data.datasets,
        ds.data.length = data.length ∧
        ∃ param, paramOf ds.label = some param ∧
          ∀ (i : Nat) (hi : i < data.length),
            ds.data[i]? = some ((data.get ⟨i, hi⟩) param) := by
  have hp := parses_of_declared _ hc
  rw [fetchData_of_parses fmtTime page status data hd hp, updateCharts_of_parses _ _ _ hp]
  refine ⟨rfl, rfl, ?_, ?_⟩
  · exact declared_keys _ (declared_map_redraw _ _ _ hc)
  · intro p hpm
    obtain ⟨q, hq, rfl⟩ := List.mem_map.mp hpm
    refine ⟨by simp [redraw], ?_, ?_⟩
    · intro i hi
      simp [redraw, List.getElem?_map, List.getElem?_eq_getElem hi]
    · intro ds hds
      simp only [redraw, List.mem_map] at hds
      obtain ⟨ds0, hds0, rfl⟩ := hds
      have hsome := hp q hq ds0 hds0
      obtain ⟨param, hparam⟩ := Option.isSome_iff_exists.mp hsome
      rw [rebind_data_of_some data ds0 param hparam, rebind_label]
      refine ⟨by simp, param, hparam, ?_⟩
      intro i hi
      simp [List.getElem?_map, List.getElem?_eq_getElem hi]

/-- C2, at the response `[sampleReading]` on the initial page. -/
theorem poll_charts_follow_input_witness :
    [sampleReading] ≠ [] ∧ Declared (initialPage ([] : List (Card ℚ))).charts ∧
    ∀ p ∈ (updateCharts sampleClock [sampleReading] (initialPage []).charts).state,
      p.2.data.labels.length = 1 :=
  ⟨by simp, initialPage_declared [],
    fun p hp =>
      ((poll_charts_follow_input sampleClock (initialPage []) 200 [sampleReading] (by simp)
        (initialPage_declared [])).2.2.2 p hp).1⟩

/-- C3. A poll whose body parses to the empty array completes and leaves the
page exactly as it was: the card panel, every chart (labels, dataset values
and number of redraws) and the console. -/
theorem empty_array_changes_nothing {V : Type} (fmtTime : Option V → String) (page : Page V)
    (status : Nat) :
    fetchData fmtTime page (.response status (some [])) = { state := page, threw := none } := by
  simp [fetchData]

/-- C4. When the fetch is rejected or the body is not JSON, `fetchData`
completes without raising and leaves the card panel and the chart registry as
they were; hence, after any sequence of earlier polls, this failed poll
followed by any poll (in particular a successful non-empty one) gives the same
user interface as that poll alone. -/
theorem failed_poll_keeps_ui {V : Type} (fmtTime : Option V → String) (page : Page V)
    (o : PollOutcome V) (h : o.failed = true) :
    (fetchData fmtTime page o).threw = none ∧
    (fetchData fmtTime page o).state.latestData = page.latestData ∧
    (fetchData fmtTime page o).state.charts = page.charts ∧
    ∀ (before : List (PollOutcome V)) (next : PollOutcome V),
      (runPolls fmtTime page (before ++ [o, next])).latestData =
          (runPolls fmtTime page (before ++ [next])).latestData ∧
      (runPolls fmtTime page (before ++ [o, next])).charts =
          (runPolls fmtTime page (before ++ [next])).charts := by
  refine ⟨fetchData_threw _ _ _, ?_, ?_, ?_⟩
  · obtain ⟨e, he⟩ := fetchData_failed fmtTime page o h
    rw [he]; rfl
  · obtain ⟨e, he⟩ := fetchData_failed fmtTime page o h
    rw [he]; rfl
  · intro before next
    obtain ⟨e, he⟩ := fetchData_failed fmtTime (runPolls fmtTime page before) o h
    have hui := fetchData_ui_congr fmtTime
      (fetchData fmtTime (runPolls fmtTime page before) o).state
      (runPolls fmtTime page before) next (by rw [he]; rfl)
    simp only [ui, Prod.mk.injEq] at hui
    simpa [runPolls_append, runPolls] using hui

/-- C4, at a rejected fetch on the initial page followed by the response
`[sampleReading]`. -/
theorem failed_poll_keeps_ui_witness :
    (PollOutcome.fetchRejects : PollOutcome ℚ).failed = true ∧
    (runPolls sampleClock (initialPage [])
        [.fetchRejects, .response 200 (some [sampleReading])]).latestData =
      (runPolls sampleClock (initialPage []) [.response 200 (some [sampleReading])]).latestData :=
  ⟨rfl,
    ((failed_poll_keeps_ui sampleClock (initialPage []) .fetchRejects rfl).2.2.2 []
      (.response 200 (some [sampleReading]))).1⟩

/-- C5 (counterexample). A response with status 500 whose body is the
one-reading array of the specification is rendered: on the initial page with
an empty panel, the poll leaves nine cards and redraws every chart once. -/
theorem status_500_body_is_rendered :
    (fetchData sampleClock (initialPage []) (.response 500 (some [sampleReading]))).state.latestData.length = 9 ∧
    (initialPage ([] : List (Card ℚ))).latestData.length = 0 ∧
    (fetchData sampleClock (initialPage []) (.response 500 (some [sampleReading]))).state.latestData ≠
      (initialPage []).latestData ∧
    (fetchData sampleClock (initialPage []) (.response 500 (some [sampleReading]))).state.charts.map
        (fun p => (p.2.updates, p.2.data.labels.length)) = [(1, 1), (1, 1), (1, 1), (1, 1)] ∧
    (initialPage ([] : List (Card ℚ))).charts.map
        (fun p => (p.2.updates, p.2.data.labels.length)) = [(0, 0), (0, 0), (0, 0), (0, 0)] := by
  have h := fetchData_latestData sampleClock (initialPage []) 500 [sampleReading] (by simp)
  refine ⟨?_, rfl, ?_, rfl, rfl⟩
  · rw [h]; rfl
  · rw [h]; intro hc
    have := congrArg List.length hc
    simp [parameters, initialPage] at this

/-- C5 (amended). The function `fetchData` never reads the HTTP status: for
every status the poll does what a 200 response with the same body does. A body
that is a non-empty array of readings is rendered whatever the status: the
card panel is what `updateLatestData` makes of its last reading and the charts
are what `updateCharts` makes of the array. Panel and charts stay as they were
when the body is not JSON (caught and logged) and when the guard
`data && data.length > 0` fails, with nothing logged: the empty array, `null`,
a boolean, a number, the empty string, an object without a positive `length`.
A body that is not an array never changes a chart; when it passes the guard (a
non-empty string, an object with a positive `length`) the panel is rebuilt
from `data[data.length - 1]` and the error `updateCharts` raises on `data.map`
is caught and logged. -/
theorem fetchData_ignores_status {V : Type} (fmtTime : Option V → String) (page : Page V)
    (status : Nat) (body : Option (List (Reading V))) (d : Reading V)
    (rest : List (Reading V)) (v : JsonValue V) (b : Bool) (x : ℚ) (s : String)
    (members : Reading V) (positive : Bool) (element : Option (Reading V)) :
    fetchData fmtTime page (.response status body) =
        fetchData fmtTime page (.response 200 body) ∧
    fetchData fmtTime page (.nonArray status v) =
        fetchData fmtTime page (.nonArray 200 v) ∧
    fetchData fmtTime page (.response status none) =
        catchError page JsError.syntaxError ∧
    (fetchData fmtTime page (.response status none)).state.latestData = page.latestData ∧
    (fetchData fmtTime page (.response status none)).state.charts = page.charts ∧
    fetchData fmtTime page (.response status (some [])) = { state := page, threw := none } ∧
    (fetchData fmtTime page (.response status (some (rest ++ [d])))).state.latestData =
        (updateLatestData (some d) page.latestData).state ∧
    (fetchData fmtTime page (.response status (some (rest ++ [d])))).state.charts =
        (updateCharts fmtTime (rest ++ [d]) page.charts).state ∧
    (fetchData fmtTime page (.nonArray status v)).state.charts = page.charts ∧
    fetchData fmtTime page (.nonArray status .null) = { state := page, threw := none } ∧
    fetchData fmtTime page (.nonArray status (.bool b)) = { state := page, threw := none } ∧
    fetchData fmtTime page (.nonArray status (.number x)) = { state := page, threw := none } ∧
    fetchData fmtTime page (.nonArray status (.string "")) = { state := page, threw := none } ∧
    fetchData fmtTime page (.nonArray status (.object members false element)) =
        { state := page, threw := none } ∧
    (members "length" = none →
      fetchData fmtTime page (.nonArray status (.object members positive element)) =
        { state := page, threw := none }) ∧
    (s ≠ "" →
      fetchData fmtTime page (.nonArray status (.string s)) =
        catchError
          { page with
            latestData := parameters.map (fun param =>
              { className := "sensor-card"
                heading := replaceAllChar '_' ' ' param
                value := none }) }
          JsError.typeError) ∧
    ((members "length").isSome = true →
      fetchData fmtTime page (.nonArray status (.object members true element)) =
        catchError
          { page with latestData := (updateLatestData element page.latestData).state }
          JsError.typeError) := by
  refine ⟨by cases body <;> rfl, rfl, rfl, rfl, rfl, by simp [fetchData], ?_, ?_,
    fetchData_nonArray_charts fmtTime page status v, rfl, ?_, ?_, ?_, ?_, ?_, ?_, ?_⟩
  · rw [fetchData_latestData fmtTime page status (rest ++ [d]) (by simp),
      updateLatestData_some]
    simp
  · exact fetchData_charts fmtTime page status (rest ++ [d]) (by simp)
  · rw [fetchData_nonArray]
    simp [JsonValue.lengthPositive]
  · rw [fetchData_nonArray]
    simp [JsonValue.lengthPositive]
  · rw [fetchData_nonArray]
    simp [JsonValue.truthy]
  · rw [fetchData_nonArray]
    cases h : members "length" <;> simp [JsonValue.lengthPositive, h]
  · intro h
    rw [fetchData_nonArray]
    simp [JsonValue.lengthPositive, h]
  · intro h
    have hlen : s.length ≠ 0 := by
      intro h0
      apply h
      obtain ⟨l⟩ := s
      simp only [String.length, List.length_eq_zero] at h0
      subst h0
      rfl
    rw [fetchData_nonArray]
    simp only [JsonValue.truthy, JsonValue.lengthPositive, JsonValue.last, h,
      Nat.pos_of_ne_zero hlen, updateLatestData_some, ne_eq, not_false_eq_true, decide_True,
      gt_iff_lt, Bool.and_self, if_true]
    rfl
  · intro h
    obtain ⟨w, hw⟩ := Option.isSome_iff_exists.mp h
    rw [fetchData_nonArray]
    simp [JsonValue.truthy, JsonValue.lengthPositive, JsonValue.last, hw]

/-- C5 (amended), at status 500 on the initial page with the body
`{"code": 500}`, which changes nothing, and with the body `"oops"`, which
leaves nine cards without a value and logs the caught error. -/
theorem fetchData_ignores_status_witness :
    (Reading.ofList [("code", (500 : ℚ))]) "length" = none ∧
    fetchData sampleClock (initialPage [])
        (.nonArray 500 (.object (Reading.ofList [("code", (500 : ℚ))]) true none)) =
      { state := initialPage [], threw := none } ∧
    "oops" ≠ "" ∧
    fetchData sampleClock (initialPage []) (.nonArray 500 (.string "oops")) =
      catchError
        { initialPage [] with
          latestData := parameters.map (fun param =>
            { className := "sensor-card"
              heading := replaceAllChar '_' ' ' param
              value := none }) }
        JsError.typeError :=
  ⟨rfl,
    (fetchData_ignores_status sampleClock (initialPage []) 500 none sampleReading [] .null
      false 0 "oops" (Reading.ofList [("code", (500 : ℚ))]) true none).2.2.2.2.2.2.2.2.2.2.2.2.2.2.1
      rfl,
    by decide,
    (fetchData_ignores_status sampleClock (initialPage []) 500 none sampleReading [] .null
      false 0 "oops" (Reading.ofList [("code", (500 : ℚ))]) true none).2.2.2.2.2.2.2.2.2.2.2.2.2.2.2.1
      (by decide)⟩

/-- C6. For every snapshot object and every prior content of the panel,
`updateLatestData` completes and leaves exactly nine cards, one per parameter
in the fixed order; the result does not depend on the prior content, and a
field absent from the snapshot still has its card (with value `undefined`). -/
theorem updateLatestData_nine_cards {V : Type} (latest : Reading V)
    (prior : List (Card V)) :
    (updateLatestData (some latest) prior).threw = none ∧
    (updateLatestData (some latest) prior).state.length = 9 ∧
    (updateLatestData (some latest) prior).state =
      [ "soil_moisture", "soil_nitrogen", "soil_phosphorus", "soil_potassium",
        "soil_temperature", "soil_humidity", "soil_ph", "air_temperature",
        "air_humidity" ].map
        (fun param =>
          { className := "sensor-card"
            heading := replaceAllChar '_' ' ' param
            value := latest param }) ∧
    (updateLatestData (some latest) prior).state.map (fun card => card.heading) =
      [ "soil moisture", "soil nitrogen", "soil phosphorus", "soil potassium",
        "soil temperature", "soil humidity", "soil ph", "air temperature",
        "air humidity" ] := by
  rw [updateLatestData_some]
  refine ⟨rfl, rfl, rfl, ?_⟩
  rfl

/-- C7. For every non-empty response array the poll leaves one card per
parameter whose heading is the parameter name with each underscore turned into
a space (no underscore remains, the length and every other character are
kept) and whose value is that field of the last element of the array; for a
one-reading array whose `soil_moisture` is `v` the panel has the card headed
`soil moisture` with value `v`. -/
theorem poll_cards_show_last_reading {V : Type} (fmtTime : Option V → String) (page : Page V)
    (status : Nat) (data : List (Reading V)) (hd : data ≠ []) :
    (fetchData fmtTime page (.response status (some data))).state.latestData =
      parameters.map (fun param =>
        { className := "sensor-card"
          heading := replaceAllChar '_' ' ' param
          value := (data.getLast hd) param }) ∧
    (∀ param : String,
      '_' ∉ (replaceAllChar '_' ' ' param).data ∧
      (replaceAllChar '_' ' ' param).data.length = param.data.length ∧
      ∀ (i : Nat) (hi : i < param.data.length),
        (replaceAllChar '_' ' ' param).data[i]? =
          some (if param.data.get ⟨i, hi⟩ = '_' then ' ' else param.data.get ⟨i, hi⟩)) ∧
    ∀ (d : Reading V) (v : V), data = [d] → d "soil_moisture" = some v →
      ({ className := "sensor-card", heading := "soil moisture", value := some v } : Card V) ∈
        (fetchData fmtTime page (.response status (some data))).state.latestData := by
  refine ⟨fetchData_latestData fmtTime page status data hd, ?_, ?_⟩
  · intro param
    refine ⟨?_, by simp [replaceAllChar], ?_⟩
    · simp only [replaceAllChar, List.mem_map, not_exists, not_and]
      intro c _ hc
      by_cases h : c = '_'
      · simp [h] at hc
      · simp [h] at hc
    · intro i hi
      simp [replaceAllChar, List.getElem?_map, List.getElem?_eq_getElem hi]
  · intro d v hdata hv
    subst hdata
    rw [fetchData_latestData fmtTime page status [d] hd]
    have hhead : replaceAllChar '_' ' ' "soil_moisture" = "soil moisture" := by decide
    refine List.mem_map.mpr ⟨"soil_moisture", by simp [parameters], ?_⟩
    simp [cardOf, hhead, hv]

/-- C7, at the one-reading input of the specification, whose `soil_moisture`
is 42. -/
theorem poll_cards_show_last_reading_witness :
    [sampleReading] ≠ [] ∧
    ({ className := "sensor-card", heading := "soil moisture", value := some 42 } : Card ℚ) ∈
      (fetchData sampleClock (initialPage []) (.response 200 (some [sampleReading]))).state.latestData :=
  ⟨by simp,
    (poll_cards_show_last_reading sampleClock (initialPage []) 200 [sampleReading]
      (by simp)).2.2 sampleReading 42 rfl rfl⟩

/-- C8. For every two response arrays and every chart registry, what the
charts show after `updateCharts(d1)` then `updateCharts(d2)` is what they show
after `updateCharts(d2)` alone; on the declared charts every label sequence
and every value sequence then has the length of `d2` (5, not 8, for 3 then 5
readings). -/
theorem updateCharts_replaces {V : Type} (fmtTime : Option V → String) (charts : Charts V)
    (d1 d2 : List (Reading V)) :
    chartsView (updateCharts fmtTime d2 (updateCharts fmtTime d1 charts).state).state =
      chartsView (updateCharts fmtTime d2 charts).state ∧
    (Declared charts →
      ∀ p ∈ (updateCharts fmtTime d2 (updateCharts fmtTime d1 charts).state).state,
        p.2.data.labels.length = d2.length ∧
        ∀ ds ∈ p.2.data.datasets, ds.data.length = d2.length) := by
  refine ⟨updateChartsLoop_overwrite _ _ d1 d2 charts, ?_⟩
  intro hc
  exact (updateCharts_declared fmtTime d2 _ (updateCharts_declared fmtTime d1 charts hc).1).2

/-- C8, at three readings followed by five readings on the initial charts:
every label and value sequence has length 5. -/
theorem updateCharts_replaces_witness :
    Declared (initialPage ([] : List (Card ℚ))).charts ∧
    ∀ p ∈ (updateCharts sampleClock (List.replicate 5 sampleReading)
        (updateCharts sampleClock (List.replicate 3 sampleReading)
          (initialPage []).charts).state).state,
      p.2.data.labels.length = 5 ∧ ∀ ds ∈ p.2.data.datasets, ds.data.length = 5 :=
  ⟨initialPage_declared [],
    (updateCharts_replaces sampleClock (initialPage []).charts (List.replicate 3 sampleReading)
      (List.replicate 5 sampleReading)).2 (initialPage_declared [])⟩

/-- C9. `updateCharts` is idempotent on what the charts show: for every
response array and every chart registry, running it twice leaves the chart
identifiers, the labels, the dataset display labels and the dataset values as
running it once does, and raises exactly when the single run does. -/
theorem updateCharts_idempotent {V : Type} (fmtTime : Option V → String) (charts : Charts V)
    (d : List (Reading V)) :
    chartsView (updateCharts fmtTime d (updateCharts fmtTime d charts).state).state =
      chartsView (updateCharts fmtTime d charts).state ∧
    (updateCharts fmtTime d (updateCharts fmtTime d charts).state).threw =
      (updateCharts fmtTime d charts).threw := by
  refine ⟨updateChartsLoop_overwrite _ _ d d charts, ?_⟩
  exact updateChartsLoop_threw_after _ d charts

/-- C10. On every page reachable from the initial setup through polls of any
outcome, the registry holds the four charts and on each of them every dataset
has as many values as the chart has labels. -/
theorem reachable_charts_aligned {V : Type} (fmtTime : Option V → String) (page : Page V)
    (h : Reachable fmtTime page) :
    page.charts.map Prod.fst =
      ["temp-humidity-chart", "soil-nutrients-chart", "soil-moisture-chart", "soil-ph-chart"] ∧
    ∀ p ∈ page.charts, ∀ ds ∈ p.2.data.datasets, ds.data.length = p.2.data.labels.length :=
  ⟨declared_keys _ (reachable_declared_aligned fmtTime page h).1,
    (reachable_declared_aligned fmtTime page h).2⟩

/-- C10, at the page left by a rejected fetch followed by the response
`[sampleReading]`. -/
theorem reachable_charts_aligned_witness :
    Reachable sampleClock
      (fetchData sampleClock (fetchData sampleClock (initialPage []) .fetchRejects).state
        (.response 200 (some [sampleReading]))).state ∧
    ∀ p ∈ (fetchData sampleClock (fetchData sampleClock (initialPage []) .fetchRejects).state
        (.response 200 (some [sampleReading]))).state.charts,
      ∀ ds ∈ p.2.data.datasets, ds.data.length = p.2.data.labels.length :=
  ⟨Reachable.poll _ _ (Reachable.poll _ _ (Reachable.setup [])),
    (reachable_charts_aligned sampleClock _
      (Reachable.poll _ _ (Reachable.poll _ _ (Reachable.setup [])))).2⟩

end Dashboard
